import Mathlib

/-!
Verification development for the smartpulse repository.

Shallow embedding of the authentication / retry / submission pipeline:
  * src/client/main.py        (SmartPulseClient, retry_on_failure, safe_json_parse,
                               transform_db_data_to_api_format)
  * src/send-forecast/auth_manager.py   (AuthManager)
  * src/send-forecast/portal_manager.py (PortalManager)
  * src/send-forecast/forecast_sender.py (ForecastSender)
  * src/server/main.py        (save_consumption_forecast endpoint)

Machine integers are Int/Nat, datetimes are Int (seconds), Python floats are
modelled as exact rationals (Rat), fallible code returns Except/Option.
-/

set_option maxRecDepth 100000

-- ===================== Python-style string primitives =====================

/-- The whitespace characters stripped by Python str.strip / int(str). -/
def pyWhitespace : List Char := [' ', '\t', '\n', '\r', '\x0b', '\x0c']

/-- Python str.strip on a character list. -/
def pyStripList (cs : List Char) : List Char :=
  ((cs.dropWhile (fun c => pyWhitespace.contains c)).reverse.dropWhile
    (fun c => pyWhitespace.contains c)).reverse

def isAsciiDigit (c : Char) : Bool := decide ('0' ≤ c) && decide (c ≤ '9')

def digitVal (c : Char) : Nat := c.toNat - 48

/-- Digit run with optional single underscores between digits (Python int grammar). -/
def pyDigitsAux : List Char → Nat → Option Nat
  | [], acc => some acc
  | c :: cs, acc =>
    if isAsciiDigit c then pyDigitsAux cs (10 * acc + digitVal c)
    else if c = '_' then
      match cs with
      | d :: cs2 => if isAsciiDigit d then pyDigitsAux cs2 (10 * acc + digitVal d) else none
      | [] => none
    else none

def pyDigits : List Char → Option Nat
  | [] => none
  | c :: cs => if isAsciiDigit c then pyDigitsAux cs (digitVal c) else none

/-- Model of Python int(s) on a string: optional surrounding whitespace, optional
sign, then a non-empty digit run (single underscores allowed between digits);
returns none where Python raises ValueError. -/
def pyParseInt (s : String) : Option Int :=
  match pyStripList s.data with
  | '+' :: rest => (pyDigits rest).map (fun n => (n : Int))
  | '-' :: rest => (pyDigits rest).map (fun n => -(n : Int))
  | rest => (pyDigits rest).map (fun n => (n : Int))

-- ===================== Token state and validity checks =====================

/-- Token-related attributes of SmartPulseClient (src/client/main.py lines 309-311). -/
structure ClientTokenState where
  access_token : Option String
  token_expires_at : Option Int
  token_expires_in : Int
deriving DecidableEq, Repr

/-- SmartPulseClient._is_token_valid (src/client/main.py lines 317-324):
false when the token or expiry is falsy, otherwise now < expiry - 5 minutes. -/
def client_is_token_valid (st : ClientTokenState) (now : Int) : Bool :=
  match st.access_token, st.token_expires_at with
  | some t, some e => if t = "" then false else decide (now < e - 300)
  | _, _ => false

/-- Token-related attributes of AuthManager (src/send-forecast/auth_manager.py). -/
structure AuthTokenState where
  access_token : Option String
  token_expiry : Option Int
deriving DecidableEq, Repr

/-- AuthManager.is_token_valid (src/send-forecast/auth_manager.py lines 152-158):
false when the token or expiry is falsy, otherwise now < expiry - 60 seconds. -/
def auth_is_token_valid (st : AuthTokenState) (now : Int) : Bool :=
  match st.access_token, st.token_expiry with
  | some t, some e => if t = "" then false else decide (now < e - 60)
  | _, _ => false

-- ===================== Token acquisition =====================

/-- JSON body of a token response: access_token may be absent (KeyError path),
expires_in may be absent (defaulted to 3600). -/
structure TokenBody where
  access_token : Option String
  expires_in : Option Int
deriving DecidableEq, Repr

/-- Outcome of the HTTP interaction inside one invocation of
SmartPulseClient.get_token (src/client/main.py lines 354-360). -/
inductive TokenResponseOutcome where
  | requestExn : TokenResponseOutcome  -- requests.exceptions.RequestException
  | parseExn : TokenResponseOutcome    -- JSONParseError from safe_json_parse
  | body : TokenBody → TokenResponseOutcome
deriving DecidableEq, Repr

/-- One invocation of SmartPulseClient.get_token (src/client/main.py lines 336-380).
All three exception classes (RequestException, JSONParseError, KeyError) are caught
inside the function and turned into a normal False return that leaves the stored
token state untouched; on success all three attributes are replaced. -/
def get_token_once (st : ClientTokenState) (now : Int) (o : TokenResponseOutcome) :
    Bool × ClientTokenState :=
  match o with
  | .requestExn => (false, st)
  | .parseExn => (false, st)
  | .body b =>
    match b.access_token with
    | none => (false, st)  -- KeyError raised before any assignment, then caught
    | some t =>
      let ei := b.expires_in.getD 3600
      (true, ClientTokenState.mk (some t) (some (now + ei)) ei)

-- ===================== Retry policy (retry_on_failure) =====================

/-- The part of a requests Response consulted by the retry decorator:
status code and the Retry-After header (none when the header is absent;
some "" when it is present with an empty value). -/
structure RespInfo where
  status : Nat
  retryAfter : Option String
deriving DecidableEq, Repr

/-- A requests.exceptions.RequestException as seen by the retry decorator:
an optional attached response, and whether the exception is a
ConnectionError or Timeout. -/
structure ReqError where
  response : Option RespInfo
  isConnOrTimeout : Bool
deriving DecidableEq, Repr

/-- Default retry_statuses of retry_on_failure (src/client/main.py line 151). -/
def retry_statuses : List Nat := [500, 502, 503, 504, 429]

/-- The should_retry / wait_time computation for one failed attempt
(src/client/main.py lines 176-209).  attempt is the 1-based attempt index. -/
def retryWait (backoff : Int) (attempt : Nat) (e : ReqError) : Bool × Int :=
  match e.response with
  | some resp =>
    if resp.status ∈ retry_statuses then
      if resp.status = 429 then
        match resp.retryAfter with
        | some ra =>
          -- Python: "if retry_after:" — an empty header value is falsy and
          -- falls through to the no-Retry-After branch.
          if ra = "" then (true, backoff ^ attempt * 2)
          else
            match pyParseInt ra with
            | some n => (true, n)
            | none => (true, backoff ^ attempt)
        | none => (true, backoff ^ attempt * 2)
      else (true, backoff ^ (attempt - 1))
    else (false, backoff ^ (attempt - 1))
  | none =>
    if e.isConnOrTimeout then (true, backoff ^ (attempt - 1))
    else (false, backoff ^ (attempt - 1))

/-- The wrapper loop of retry_on_failure (src/client/main.py lines 162-220),
driven by f, where f i is the result of the i-th (1-based) invocation of the
wrapped function.  Returns (result, number of invocations, list of sleeps);
result .error none models "raise None" (only reachable with max_attempts = 0). -/
def retryAux {α : Type} (f : Nat → Except ReqError α) (backoff : Int) :
    Nat → Nat → Except (Option ReqError) α × Nat × List Int
  | 0, _ => (Except.error none, 0, [])
  | r + 1, attempt =>
    match f attempt with
    | Except.ok v => (Except.ok v, 1, [])
    | Except.error e =>
      if r = 0 then (Except.error (some e), 1, [])  -- attempt == max_attempts: break
      else
        let sw := retryWait backoff attempt e
        if sw.1 then
          let rest := retryAux f backoff r (attempt + 1)
          (rest.1, rest.2.1 + 1, sw.2 :: rest.2.2)
        else (Except.error (some e), 1, [])  -- non-retryable: break

/-- retry_on_failure(max_attempts, backoff_factor) applied to a function whose
i-th invocation yields f i. -/
def retry_on_failure {α : Type} (maxAttempts : Nat) (backoff : Int)
    (f : Nat → Except ReqError α) : Except (Option ReqError) α × Nat × List Int :=
  retryAux f backoff maxAttempts 1

/-- A generic retryable transport error: a connection error / timeout without a
response, or an HTTP error with status in 500, 502, 503, 504. -/
def genericRetryable (e : ReqError) : Prop :=
  (e.response = none ∧ e.isConnOrTimeout = true) ∨
    (∃ r, e.response = some r ∧ r.status ∈ ([500, 502, 503, 504] : List Nat))

-- ===================== AuthManager.get_access_token =====================

inductive AuthError where
  | transport : ReqError → AuthError   -- RequestException, re-raised unchanged
  | keyError : String → AuthError      -- data['access_token'] missing (uncaught)
deriving DecidableEq, Repr

/-- Outcome of the HTTP interaction inside AuthManager.get_access_token. -/
inductive AuthRequestOutcome where
  | requestExn : ReqError → AuthRequestOutcome
  | body : TokenBody → AuthRequestOutcome
deriving DecidableEq, Repr

/-- The fresh-request path of AuthManager.get_access_token
(src/send-forecast/auth_manager.py lines 104-150).  There is no retry
decorator in auth_manager.py: the network call is made exactly once and a
RequestException is logged and re-raised unchanged to the caller. -/
def get_access_token_request (_st : AuthTokenState) (now : Int) (o : AuthRequestOutcome) :
    Except AuthError (String × AuthTokenState) :=
  match o with
  | .requestExn e => Except.error (AuthError.transport e)
  | .body b =>
    match b.access_token with
    | none => Except.error (AuthError.keyError "access_token")
    | some t =>
      let ei := b.expires_in.getD 3600
      Except.ok (t, AuthTokenState.mk (some t) (some (now + ei)))

-- ===================== safe_json_parse and the sender's parse handling =====================

/-- The parts of a requests Response consulted by safe_json_parse; the json
field is none when response.json() raises json.JSONDecodeError. -/
structure PyResponse (J : Type) where
  url : String
  status_code : Nat
  content_type : Option String
  text : String
  json : Option J
deriving Repr

/-- The data carried in the JSONParseError message raised by safe_json_parse. -/
structure JSONParseErrorInfo where
  url : String
  status : Nat
  contentType : String
  bodyPreview : String
deriving DecidableEq, Repr

/-- Body preview used by safe_json_parse: response.text[:500] if truthy else "<empty>". -/
def bodyPreviewOf (t : String) : String :=
  if t.isEmpty then "<empty>" else String.mk (t.data.take 500)

/-- safe_json_parse (src/client/main.py lines 123-148): returns the parsed JSON,
or raises a JSONParseError carrying the url, status, content-type (defaulted to
"unknown") and a body preview of at most 500 characters. -/
def safe_json_parse {J : Type} (r : PyResponse J) : Except JSONParseErrorInfo J :=
  match r.json with
  | some j => Except.ok j
  | none =>
    Except.error
      (JSONParseErrorInfo.mk r.url r.status_code (r.content_type.getD "unknown")
        (bodyPreviewOf r.text))

/-- Result of the response-parsing step of ForecastSender.send_forecast. -/
inductive SenderParseOutcome (J : Type) where
  | parsed : J → SenderParseOutcome J
  | defaulted : String → String → SenderParseOutcome J
deriving DecidableEq, Repr

/-- The response handling of ForecastSender.send_forecast
(src/send-forecast/forecast_sender.py lines 288-292): after a 2xx response,
"try: return response.json() except: return (a dict with status "success" and
raw_response = response.text)" — a JSON parse failure is swallowed and replaced
by a default value, never surfaced. -/
def sender_parse_response {J : Type} (r : PyResponse J) : SenderParseOutcome J :=
  match r.json with
  | some j => SenderParseOutcome.parsed j
  | none => SenderParseOutcome.defaulted "success" r.text

-- ===================== Forecast submission (client side) =====================

/-- JSON body of a submission response as typed by the wire contract. -/
structure SubmitBody where
  success : Option Bool
  message : Option String
  savedRecords : Option Int
deriving DecidableEq, Repr

/-- Outcome of the HTTP interaction inside SmartPulseClient.send_consumption_forecast. -/
inductive SubmitHttpOutcome where
  | requestExn : SubmitHttpOutcome
  | parseExn : SubmitHttpOutcome
  | body : SubmitBody → SubmitHttpOutcome
deriving DecidableEq, Repr

/-- Observable result of one invocation of send_consumption_forecast: the value
returned, the body message logged with "Failed to save forecast" when the
business-level success flag is falsy, and whether an exception escaped. -/
structure SubmitReport where
  returned : Bool
  loggedFailureMessage : Option (Option String)
  raised : Bool
deriving DecidableEq, Repr

/-- SmartPulseClient.send_consumption_forecast response handling
(src/client/main.py lines 445-464): on a parsed 2xx body, returns True iff
result.get("success") is truthy; otherwise logs the body's message and returns
False; all listed exceptions are caught, none escape. -/
def send_consumption_forecast (o : SubmitHttpOutcome) : SubmitReport :=
  match o with
  | .requestExn => SubmitReport.mk false none false
  | .parseExn => SubmitReport.mk false none false
  | .body b =>
    if b.success.getD false then SubmitReport.mk true none false
    else SubmitReport.mk false (some b.message) false

-- ===================== Mock server: save_consumption_forecast =====================

/-- Pydantic model ForecastHour (src/server/main.py lines 58-65); the ISO
timestamp strings are kept as strings, the float value as an exact rational. -/
structure ForecastHourModel where
  isUpdated : Bool
  deliveryStart : String
  deliveryEnd : String
  deliveryStartOffset : Int
  deliveryEndOffset : Int
  order : Int
  value : Rat
deriving DecidableEq, Repr

/-- Pydantic model ForecastData (src/server/main.py lines 67-74). -/
structure ForecastDataModel where
  unitType : Int
  unitNo : Int
  providerKey : String
  total : Rat
  isUpdated : Bool
  forecastDay : String
  forecasts : List ForecastHourModel
deriving DecidableEq, Repr

/-- Pydantic model ConsumptionForecastRequest (src/server/main.py lines 76-81). -/
structure ConsumptionForecastRequestModel where
  groupId : Int
  userId : Int
  period : Int
  interval : Int
  forecastDataList : List ForecastDataModel
deriving DecidableEq, Repr

/-- Result of the endpoint: an HTTPException with a status and detail, or the
ForecastResponse body. -/
inductive ServerResult where
  | httpError : Nat → String → ServerResult
  | response : Bool → String → Nat → ServerResult  -- success, message, savedRecords
deriving DecidableEq, Repr

/-- Model of Python sorted() on integers: Mathlib's insertion sort with ≤ is a
stable sort and hence extensionally equal to Python's sorted. -/
def pySortedInt (l : List Int) : List Int := l.insertionSort (fun a b => a ≤ b)

/-- list(range(1, 25)) as integers. -/
def orders1to24 : List Int := (List.range' 1 24).map (fun n => (n : Int))

/-- The validation loop of save_consumption_forecast (src/server/main.py
lines 197-215), accumulating total_records; the first violating entry raises. -/
def validateForecastList : List ForecastDataModel → Nat → ServerResult
  | [], total =>
    ServerResult.response true "Consumption forecasts saved successfully" total
  | fd :: rest, total =>
    if fd.forecasts.length ≠ 24 then
      ServerResult.httpError 400
        ("Expected 24 hourly forecasts, got " ++ toString fd.forecasts.length)
    else if pySortedInt (fd.forecasts.map (fun h => h.order)) ≠ orders1to24 then
      ServerResult.httpError 400 "Forecast orders must be 1-24"
    else validateForecastList rest (total + fd.forecasts.length)

/-- save_consumption_forecast (src/server/main.py lines 187-228), after the
bearer-token dependency has succeeded. -/
def save_consumption_forecast (req : ConsumptionForecastRequestModel) : ServerResult :=
  validateForecastList req.forecastDataList 0

-- ===================== PortalManager: name normalization and lookup =====================

/-- Model of Python str.upper restricted to the letters this domain uses:
ASCII letters are uppercased and the lowercase Turkish letters map to their
uppercase forms; every other character is unchanged. -/
def pyUpperChar (c : Char) : Char :=
  if decide ('a' ≤ c) && decide (c ≤ 'z') then Char.ofNat (c.toNat - 32)
  else if c = 'ç' then 'Ç'
  else if c = 'ğ' then 'Ğ'
  else if c = 'ü' then 'Ü'
  else if c = 'ş' then 'Ş'
  else if c = 'ö' then 'Ö'
  else if c = 'ı' then 'I'
  else c

/-- Python "name.replace('  ', ' ')": replaces non-overlapping double spaces
left to right by single spaces. -/
def collapseDoubleSpace : List Char → List Char
  | ' ' :: ' ' :: rest => ' ' :: collapseDoubleSpace rest
  | c :: rest => c :: collapseDoubleSpace rest
  | [] => []

/-- The uppercase Turkish-to-ASCII replacement table of PortalManager._normalize_name
(src/send-forecast/portal_manager.py lines 143-150), applied characterwise. -/
def trFoldChar (c : Char) : Char :=
  if c = 'İ' then 'I'
  else if c = 'Ğ' then 'G'
  else if c = 'Ü' then 'U'
  else if c = 'Ş' then 'S'
  else if c = 'Ö' then 'O'
  else if c = 'Ç' then 'C'
  else c

/-- PortalManager._normalize_name (src/send-forecast/portal_manager.py
lines 124-155): upper-case, collapse double spaces, strip, fold Turkish letters. -/
def normalize_name (name : String) : String :=
  String.mk (((pyStripList (collapseDoubleSpace (name.data.map pyUpperChar)))).map trFoldChar)

/-- Value stored in facilities_map for one facility. -/
structure FacilityInfo where
  id : Int
  original_name : String
  company_id : Option Int
deriving DecidableEq, Repr

/-- listStartsWith pat l: pat is a prefix of l. -/
def listStartsWith : List Char → List Char → Bool
  | [], _ => true
  | _ :: _, [] => false
  | a :: as, b :: bs => a = b && listStartsWith as bs

/-- Python "pat in l" on strings: contiguous-substring containment. -/
def listContainsSub (pat : List Char) : List Char → Bool
  | [] => pat.isEmpty
  | c :: rest => listStartsWith pat (c :: rest) || listContainsSub pat rest

/-- PortalManager.get_facility_id (src/send-forecast/portal_manager.py
lines 157-180): exact lookup of the normalized name, then a first-match
substring-containment fallback, else none. -/
def get_facility_id (facilities_map : List (String × FacilityInfo))
    (customer_name : String) : Option Int :=
  let normalized := normalize_name customer_name
  match facilities_map.lookup normalized with
  | some info => some info.id
  | none =>
    (facilities_map.find? (fun p =>
      listContainsSub normalized.data p.1.data || listContainsSub p.1.data normalized.data)).map
      (fun p => p.2.id)

-- ===================== Payload building =====================

/-- Round-half-even on rationals (the rounding Python's round() performs). -/
def roundHalfEven (q : Rat) : Int :=
  let f := q.floor
  let frac := q - Rat.ofInt f
  if frac < mkRat 1 2 then f
  else if mkRat 1 2 < frac then f + 1
  else if f % 2 = 0 then f else f + 1

/-- Model of Python round(x, 2) in exact rational arithmetic. -/
def round2 (q : Rat) : Rat := mkRat (roundHalfEven (q * 100)) 100

/-- One row of customer_forecast_comparisons as fetched by the client
(src/client/main.py lines 241-291); wattica_forecast may be NULL. -/
structure DbRecord where
  forecast_date : String
  hour : Nat
  customer_name : String
  forecast_type : String
  wattica_forecast : Option Rat
deriving DecidableEq, Repr

/-- One hourly entry of the API payload; the deliveryStart/deliveryEnd
timestamp strings are abstracted by integer timestamps one hour apart
(the source formats datetimes via strftime). -/
structure ApiForecastEntry where
  isUpdated : Bool
  deliveryStart : Int
  deliveryEnd : Int
  deliveryStartOffset : Int
  deliveryEndOffset : Int
  order : Nat
  value : Rat
deriving DecidableEq, Repr

structure ApiForecastData where
  unitType : Int
  unitNo : Int
  providerKey : String
  total : Rat
  isUpdated : Bool
  forecastDay : String
  forecasts : List ApiForecastEntry
deriving DecidableEq, Repr

structure ApiPayload where
  groupId : Int
  userId : Int
  period : Int
  interval : Int
  forecastDataList : List ApiForecastData
deriving DecidableEq, Repr

/-- The non-null wattica forecasts of the records for hour h, in record order
(the hour_data grouping of src/client/main.py lines 520-525 preserves order). -/
def hourValues (records : List DbRecord) (h : Nat) : List Rat :=
  (records.filter (fun r => r.hour = h)).filterMap (fun r => r.wattica_forecast)

/-- The per-hour value of transform_db_data_to_api_format
(src/client/main.py lines 532-539): 0.0 unless some non-null value exists,
else the sum of the non-null values. -/
def hourValue (records : List DbRecord) (h : Nat) : Rat :=
  let vs := hourValues records h
  if vs.isEmpty then 0 else vs.sum

/-- transform_db_data_to_api_format (src/client/main.py lines 500-574):
none on empty input, else a payload whose 24 hourly values are the rounded
per-hour sums and whose total is the rounded sum of those 24 values. -/
def transform_db_data_to_api_format (db_records : List DbRecord)
    (forecast_date : String) : Option ApiPayload :=
  if db_records.isEmpty then none
  else
    let forecasts := (List.range 24).map (fun h =>
      ApiForecastEntry.mk false (Int.ofNat h) (Int.ofNat h + 1) 180 180 (h + 1)
        (round2 (hourValue db_records h)))
    let daily_total := (forecasts.map (fun f => f.value)).sum
    some (ApiPayload.mk 12 2952 1 1
      [ApiForecastData.mk 0 1 "testDemo" (round2 daily_total) false forecast_date forecasts])

/-- One row as fetched by ForecastSender (src/send-forecast/forecast_sender.py
lines 86-95); prediction_ts abstracted to an integer timestamp. -/
structure SenderRecord where
  customer_name : String
  prediction_ts : Int
  model_pred : Rat
  customer_pred : Option Rat
deriving DecidableEq, Repr

/-- ForecastSender.build_api_payload (src/send-forecast/forecast_sender.py
lines 156-213): resolves the facility, sorts the records by prediction_ts
(hourly_records.sort is stable, modelled by insertion sort), numbers them from
1, rounds each model_pred to 2 decimals, and hardcodes total to 0. -/
def build_api_payload (facilities_map : List (String × FacilityInfo))
    (group_id user_id : Int) (customer_name : String) (dateStr : String)
    (hourly_records : List SenderRecord) : Option ApiPayload :=
  match get_facility_id facilities_map customer_name with
  | none => none
  | some fid =>
    let sortedRecs := hourly_records.insertionSort (fun a b => a.prediction_ts ≤ b.prediction_ts)
    let forecasts := sortedRecs.enum.map (fun p =>
      ApiForecastEntry.mk false p.2.prediction_ts (p.2.prediction_ts + 1) 180 180 (p.1 + 1)
        (round2 p.2.model_pred))
    some (ApiPayload.mk group_id user_id 1 1
      [ApiForecastData.mk 0 fid "testDemo" 0 false dateStr forecasts])

-- ===================== Concrete fixtures used by witnesses and counterexamples =====================

/-- A client token state with no token. -/
def emptyClientState : ClientTokenState := ClientTokenState.mk none none 3600

/-- A per-attempt outcome sequence where every attempt hits a transport error. -/
def allTransportErrors : Nat → TokenResponseOutcome := fun _ => TokenResponseOutcome.requestExn

/-- A connection error without an attached response. -/
def connError : ReqError := ReqError.mk none true

/-- An attempt sequence that fails with a connection error once, then returns 7. -/
def failOnceThen7 : Nat → Except ReqError Nat := fun i =>
  if i = 1 then Except.error connError else Except.ok 7

/-- An attempt sequence that fails once with a 429 carrying Retry-After 10, then returns 7. -/
def rateLimitedThen7 : Nat → Except ReqError Nat := fun i =>
  if i = 1 then Except.error (ReqError.mk (some (RespInfo.mk 429 (some "10"))) false)
  else Except.ok 7

/-- A one-facility map whose key is the normalization of "BURSA AKÇANSA". -/
def bursaMap : List (String × FacilityInfo) :=
  [("BURSA AKCANSA", FacilityInfo.mk 41 "Bursa Akçansa" (some 5))]

/-- 24 sender records, one per hour, each predicting 1. -/
def senderRecs24 : List SenderRecord :=
  (List.range 24).map (fun h => SenderRecord.mk "BURSA AKÇANSA" (Int.ofNat h) 1 none)

/-- One database record at hour 0 with value 1. -/
def dbRecs1 : List DbRecord := [DbRecord.mk "2025-11-28" 0 "c" "wattica" (some 1)]

/-- The payload transform_db_data_to_api_format builds from dbRecs1. -/
def dbRecs1Payload : ApiPayload :=
  (transform_db_data_to_api_format dbRecs1 "2025-11-28").getD (ApiPayload.mk 0 0 0 0 [])

/-- The single forecastDataList entry of dbRecs1Payload. -/
def dbRecs1Entry : ApiForecastData :=
  dbRecs1Payload.forecastDataList.headD (ApiForecastData.mk 0 0 "" 0 false "" [])

/-- A server request with one entry of 24 hourly forecasts ordered 1..24. -/
def validServerRequest : ConsumptionForecastRequestModel :=
  ConsumptionForecastRequestModel.mk 12 2952 1 1
    [ForecastDataModel.mk 0 1 "testDemo" 0 false "2025-11-28"
      (orders1to24.map (fun o => ForecastHourModel.mk false "s" "e" 180 180 o 0))]

-- ===================== Theorems =====================

/-- C1 (counterexample): AuthManager.is_token_valid uses a 60-second buffer,
not a 5-minute one: with expiry 1000 and now 880 the check returns true even
though now is not strictly before expiry minus 5 minutes, refuting the claimed
iff for the cited AuthManager check. -/
theorem claim_C1_counterexample :
    auth_is_token_valid (AuthTokenState.mk (some "t") (some 1000)) 880 = true ∧
      ¬((880 : Int) < 1000 - 300) := by
  exact ⟨by decide, by decide⟩

/-- C1 (amended): SmartPulseClient._is_token_valid returns true iff a
non-empty token and an expiry are present and now < expiry - 5 minutes;
AuthManager.is_token_valid is identical except that its safety margin is
60 seconds rather than 5 minutes. -/
theorem claim_C1 (cst : ClientTokenState) (ast : AuthTokenState) (now : Int) :
    (client_is_token_valid cst now = true ↔
      ∃ t e, cst.access_token = some t ∧ t ≠ "" ∧
        cst.token_expires_at = some e ∧ now < e - 300) ∧
    (auth_is_token_valid ast now = true ↔
      ∃ t e, ast.access_token = some t ∧ t ≠ "" ∧
        ast.token_expiry = some e ∧ now < e - 60) := by
  constructor
  · obtain ⟨tok, exp, ei⟩ := cst
    cases tok with
    | none => simp [client_is_token_valid]
    | some t =>
      cases exp with
      | none => simp [client_is_token_valid]
      | some e =>
        by_cases ht : t = ""
        · subst ht; simp [client_is_token_valid]
        · simp [client_is_token_valid, ht]
  · obtain ⟨tok, exp⟩ := ast
    cases tok with
    | none => simp [auth_is_token_valid]
    | some t =>
      cases exp with
      | none => simp [auth_is_token_valid]
      | some e =>
        by_cases ht : t = ""
        · subst ht; simp [auth_is_token_valid]
        · simp [auth_is_token_valid, ht]

/-- C1 (witness): a non-empty token expiring at 1000 is valid at time 0 for
the client check. -/
theorem claim_C1_witness :
    client_is_token_valid (ClientTokenState.mk (some "t") (some 1000) 3600) 0 = true :=
  (claim_C1 (ClientTokenState.mk (some "t") (some 1000) 3600)
      (AuthTokenState.mk none none) 0).1.mpr
    ⟨"t", 1000, rfl, by decide, rfl, by decide⟩

/-- C2 (counterexample): with a transport error on every attempt, the
retry-decorated SmartPulseClient.get_token performs a single invocation,
sleeps never, and returns the normal value False to its caller instead of
retrying and re-raising the transport error: get_token catches the
RequestException internally, so the decorator never sees it. -/
theorem claim_C2_counterexample :
    retry_on_failure 3 2
        (fun i => Except.ok (get_token_once emptyClientState 0 (allTransportErrors i))) =
      (Except.ok (false, emptyClientState), 1, ([] : List Int)) := by
  rfl

/-- C2 (amended): SmartPulseClient.get_token catches HTTP and transport errors
internally and returns False, so the shared retry policy performs no retries
for it and its caller observes a normal False return, not an exception;
AuthManager.get_access_token re-raises the transport error to its caller
unchanged, but is not subject to any retry policy (a single attempt is made). -/
theorem claim_C2 (m : Nat) (hm : 1 ≤ m) (b : Int) (st : ClientTokenState) (now : Int)
    (os : Nat → TokenResponseOutcome) :
    (retry_on_failure m b (fun i => Except.ok (get_token_once st now (os i))) =
      (Except.ok (get_token_once st now (os 1)), 1, ([] : List Int))) ∧
    (os 1 = TokenResponseOutcome.requestExn → (get_token_once st now (os 1)).1 = false) ∧
    (∀ (ast : AuthTokenState) (e : ReqError),
      get_access_token_request ast now (AuthRequestOutcome.requestExn e) =
        Except.error (AuthError.transport e)) := by
  refine ⟨?_, ?_, ?_⟩
  · obtain ⟨m', rfl⟩ : ∃ m', m = m' + 1 := ⟨m - 1, by omega⟩
    simp [retry_on_failure, retryAux]
  · intro h
    rw [h]
    rfl
  · intro ast e
    rfl

/-- C2 (witness): the amended statement evaluated with three attempts, all of
them transport errors. -/
theorem claim_C2_witness :
    retry_on_failure 3 2
        (fun i => Except.ok (get_token_once emptyClientState 5 (allTransportErrors i))) =
      (Except.ok (get_token_once emptyClientState 5 (allTransportErrors 1)), 1,
        ([] : List Int)) :=
  (claim_C2 3 (by omega) 2 emptyClientState 5 allTransportErrors).1

/-- C5: on a parsed 2xx submission response, send_consumption_forecast reports
success iff the body's success flag is true; a body with success false yields
a failed report carrying the body's message, and no exception is raised. -/
theorem claim_C5 (b : SubmitBody) :
    ((send_consumption_forecast (SubmitHttpOutcome.body b)).returned = true ↔
      b.success = some true) ∧
    (b.success = some false →
      send_consumption_forecast (SubmitHttpOutcome.body b) =
        SubmitReport.mk false (some b.message) false) ∧
    (send_consumption_forecast (SubmitHttpOutcome.body b)).raised = false := by
  obtain ⟨s, m, sr⟩ := b
  cases s with
  | none => simp [send_consumption_forecast]
  | some v => cases v <;> simp [send_consumption_forecast]

/-- C5 (witness): an HTTP 200 body with success false and message "duplicate"
is reported as a failed result carrying that message, with nothing raised. -/
theorem claim_C5_witness :
    send_consumption_forecast
        (SubmitHttpOutcome.body (SubmitBody.mk (some false) (some "duplicate") none)) =
      SubmitReport.mk false (some (some "duplicate")) false :=
  (claim_C5 (SubmitBody.mk (some false) (some "duplicate") none)).2.1 rfl

/-- C10: every failing execution of get_token leaves the stored token state
exactly as it was, and every succeeding execution installs a complete new
token (token, expiry now + expires_in, expires_in). -/
theorem claim_C10 (st : ClientTokenState) (now : Int) (o : TokenResponseOutcome) :
    ((get_token_once st now o).1 = false → (get_token_once st now o).2 = st) ∧
    ((get_token_once st now o).1 = true →
      ∃ t ei, (get_token_once st now o).2 =
        ClientTokenState.mk (some t) (some (now + ei)) ei) := by
  cases o with
  | requestExn => simp [get_token_once]
  | parseExn => simp [get_token_once]
  | body b =>
    cases hb : b.access_token with
    | none => simp [get_token_once, hb]
    | some t =>
      refine ⟨?_, ?_⟩
      · intro h
        simp [get_token_once, hb] at h
      · intro _
        exact ⟨t, b.expires_in.getD 3600, by simp [get_token_once, hb]⟩

/-- C10 (witness): a transport error leaves the empty client state unchanged. -/
theorem claim_C10_witness :
    (get_token_once emptyClientState 0 TokenResponseOutcome.requestExn).2 =
      emptyClientState :=
  (claim_C10 emptyClientState 0 TokenResponseOutcome.requestExn).1 rfl

/-- For a generic retryable error (connection error, timeout, or HTTP status in
500, 502, 503, 504), the retry decorator decides to retry and waits
backoff ^ (attempt - 1) seconds. -/
theorem retryWait_generic (backoff : Int) (a : Nat) (e : ReqError)
    (h : genericRetryable e) : retryWait backoff a e = (true, backoff ^ (a - 1)) := by
  rcases h with ⟨hr, hc⟩ | ⟨r, hr, hst⟩
  · simp [retryWait, hr, hc]
  · simp only [List.mem_cons, List.mem_singleton, List.not_mem_nil, or_false] at hst
    have hmem : r.status ∈ retry_statuses := by
      simp only [retry_statuses, List.mem_cons, List.mem_singleton]
      rcases hst with h | h | h | h <;> simp [h]
    have h429 : r.status ≠ 429 := by rcases hst with h | h | h | h <;> simp [h]
    simp [retryWait, hr, hmem, h429]

/-- Behaviour of the retry loop starting at attempt a with r attempts left,
when the wrapped function fails with generic retryable errors k times and then
succeeds: the success value is returned after k + 1 invocations, with sleeps
backoff ^ (a - 1), backoff ^ a, .... -/
theorem retryAux_generic_spec {α : Type} (f : Nat → Except ReqError α) (backoff : Int)
    (v : α) :
    ∀ (k a r : Nat), k < r →
      (∀ j, j < k → ∃ e, f (a + j) = Except.error e ∧ genericRetryable e) →
      f (a + k) = Except.ok v →
      retryAux f backoff r a =
        (Except.ok v, k + 1, (List.range k).map (fun j => backoff ^ (a + j - 1))) := by
  intro k
  induction k with
  | zero =>
    intro a r hkr _ hok
    obtain ⟨r', rfl⟩ : ∃ r', r = r' + 1 := ⟨r - 1, by omega⟩
    have hea : f a = Except.ok v := by simpa using hok
    simp [retryAux, hea]
  | succ k ih =>
    intro a r hkr hfail hok
    obtain ⟨r', rfl⟩ : ∃ r', r = r' + 1 := ⟨r - 1, by omega⟩
    obtain ⟨e, he, hge⟩ := hfail 0 (by omega)
    have hea : f a = Except.error e := by simpa using he
    have hr' : r' ≠ 0 := by omega
    have hwait := retryWait_generic backoff a e hge
    have hrec := ih (a + 1) r' (by omega)
      (fun j hj => by
        obtain ⟨e', he', hge'⟩ := hfail (j + 1) (by omega)
        refine ⟨e', ?_, hge'⟩
        rw [show a + 1 + j = a + (j + 1) by omega]
        exact he')
      (by rw [show a + 1 + k = a + (k + 1) by omega]; exact hok)
    have hlist : (List.range (k + 1)).map (fun j => backoff ^ (a + j - 1)) =
        backoff ^ (a - 1) :: (List.range k).map (fun j => backoff ^ (a + 1 + j - 1)) := by
      rw [List.range_succ_eq_map, List.map_cons, List.map_map]
      have hcomp : ((fun j => backoff ^ (a + j - 1)) ∘ Nat.succ) =
          (fun j => backoff ^ (a + 1 + j - 1)) := by
        funext j
        show backoff ^ (a + (j + 1) - 1) = backoff ^ (a + 1 + j - 1)
        refine congrArg _ ?_
        omega
      rw [hcomp]
      refine congrArg₂ _ ?_ rfl
      simp
    simp only [retryAux, hea, hr', if_false, hwait, hrec, hlist]
    rfl

/-- C3: if the wrapped function fails with a retryable transport error on its
first N - 1 invocations and returns v on the N-th (1 ≤ N ≤ max_attempts), the
retry-wrapped call returns v, invokes the function exactly N times, and sleeps
exactly N - 1 times with durations backoff ^ 0, backoff ^ 1, .... -/
theorem claim_C3 {α : Type} (f : Nat → Except ReqError α) (backoff : Int)
    (maxAttempts N : Nat) (v : α) (h1 : 1 ≤ N) (h2 : N ≤ maxAttempts)
    (hfail : ∀ i, 1 ≤ i → i < N → ∃ e, f i = Except.error e ∧ genericRetryable e)
    (hok : f N = Except.ok v) :
    retry_on_failure maxAttempts backoff f =
      (Except.ok v, N, (List.range (N - 1)).map (fun j => backoff ^ j)) := by
  have hmain := retryAux_generic_spec f backoff v (N - 1) 1 maxAttempts (by omega)
    (fun j hj => by
      obtain ⟨e, he, hge⟩ := hfail (j + 1) (by omega) (by omega)
      refine ⟨e, ?_, hge⟩
      rw [show (1 : Nat) + j = j + 1 by omega]
      exact he)
    (by rw [show 1 + (N - 1) = N by omega]; exact hok)
  unfold retry_on_failure
  rw [hmain]
  have hfun : (fun j => backoff ^ (1 + j - 1)) = (fun j => backoff ^ j) := by
    funext j
    refine congrArg _ ?_
    omega
  rw [hfun, show N - 1 + 1 = N by omega]

/-- C3 (witness): a connection error on the first attempt and success 7 on the
second, with backoff factor 2: the wrapped call returns 7 after 2 invocations
and one sleep of 1 second. -/
theorem claim_C3_witness :
    retry_on_failure 3 2 failOnceThen7 = (Except.ok 7, 2, ([1] : List Int)) := by
  rw [claim_C3 failOnceThen7 2 3 2 7 (by omega) (by omega)
    (fun i hi1 hi2 => by
      have hi : i = 1 := by omega
      subst hi
      exact ⟨connError, rfl, Or.inl ⟨rfl, rfl⟩⟩)
    rfl]
  rfl

/-- C4 (counterexample): a 429 response whose Retry-After header is present
with the empty value is present but not integer-parseable, yet the code
sleeps backoff ^ attempt * 2 = 4 seconds, not backoff ^ attempt = 2, because
Python treats the empty header value as falsy. -/
theorem claim_C4_counterexample :
    retryWait 2 1 (ReqError.mk (some (RespInfo.mk 429 (some ""))) false) = (true, 4) ∧
      pyParseInt "" = none ∧ (4 : Int) ≠ 2 ^ 1 := by
  exact ⟨rfl, rfl, by decide⟩

/-- C4 (amended): for a non-final attempt failing with HTTP 429: an
integer-parseable Retry-After value n sleeps exactly n seconds; a non-empty
but unparseable value sleeps backoff ^ attempt; an absent header — or one
present with the empty value, which Python's truthiness test conflates with
absence — sleeps backoff ^ attempt * 2.  The last conjunct ties the computed
wait to the sleep actually performed by the retry loop. -/
theorem claim_C4 (backoff : Int) (a : Nat) (c : Bool) :
    (∀ ra n, pyParseInt ra = some n →
      retryWait backoff a (ReqError.mk (some (RespInfo.mk 429 (some ra))) c) = (true, n)) ∧
    (∀ ra, ra ≠ "" → pyParseInt ra = none →
      retryWait backoff a (ReqError.mk (some (RespInfo.mk 429 (some ra))) c) =
        (true, backoff ^ a)) ∧
    (retryWait backoff a (ReqError.mk (some (RespInfo.mk 429 none)) c) =
      (true, backoff ^ a * 2)) ∧
    (∀ (f : Nat → Except ReqError Nat) (v r : Nat) (ra : String) (n : Int),
      pyParseInt ra = some n →
      f 1 = Except.error (ReqError.mk (some (RespInfo.mk 429 (some ra))) c) →
      f 2 = Except.ok v →
      retry_on_failure (r + 2) backoff f = (Except.ok v, 2, ([n] : List Int))) := by
  have hmem : (429 : Nat) ∈ retry_statuses := by decide
  have hint : ∀ (att : Nat) (ra : String) (n : Int), pyParseInt ra = some n →
      retryWait backoff att (ReqError.mk (some (RespInfo.mk 429 (some ra))) c) = (true, n) := by
    intro att ra n hp
    have hne : ra ≠ "" := by
      intro hra
      subst hra
      have hnone : pyParseInt "" = none := rfl
      rw [hnone] at hp
      exact Option.noConfusion hp
    simp [retryWait, hmem, hne, hp]
  refine ⟨hint a, ?_, ?_, ?_⟩
  · intro ra hne hp
    simp [retryWait, hmem, hne, hp]
  · simp [retryWait, hmem]
  · intro f v r ra n hp hf1 hf2
    have hw := hint 1 ra n hp
    unfold retry_on_failure
    simp only [retryAux, hf1, hf2, hw, Nat.add_eq, Nat.succ_ne_zero, if_false]
    simp [hw]

/-- C4 (witness): a 429 with Retry-After 10 on the first attempt, then success
7: the wrapped call sleeps exactly 10 seconds. -/
theorem claim_C4_witness :
    retry_on_failure 3 2 rateLimitedThen7 = (Except.ok 7, 2, ([10] : List Int)) :=
  (claim_C4 2 1 false).2.2.2 rateLimitedThen7 7 1 "10" 10 rfl rfl rfl

/-- Python's sorted() result equals list(range(1, 25)) exactly when the input
is a permutation of 1..24. -/
theorem pySortedInt_eq_iff_perm (l : List Int) :
    pySortedInt l = orders1to24 ↔ l.Perm orders1to24 := by
  constructor
  · intro h
    exact h ▸ (List.perm_insertionSort (fun a b : Int => a ≤ b) l).symm
  · intro h
    have hs1 : List.Sorted (fun a b : Int => a ≤ b) (pySortedInt l) :=
      List.sorted_insertionSort (fun a b : Int => a ≤ b) l
    have hs2 : List.Sorted (fun a b : Int => a ≤ b) orders1to24 := by decide
    have hperm : (pySortedInt l).Perm orders1to24 :=
      (List.perm_insertionSort (fun a b : Int => a ≤ b) l).trans h
    exact List.eq_of_perm_of_sorted hperm hs1 hs2

/-- The validation loop accepts a list whose entries all have 24 forecasts
with orders a permutation of 1..24, and reports the accumulated record count. -/
theorem validateForecastList_ok (L : List ForecastDataModel) :
    ∀ acc, (∀ fd ∈ L, fd.forecasts.length = 24 ∧
        (fd.forecasts.map (fun h => h.order)).Perm orders1to24) →
      validateForecastList L acc =
        ServerResult.response true "Consumption forecasts saved successfully"
          (acc + (L.map (fun fd => fd.forecasts.length)).sum) := by
  induction L with
  | nil =>
    intro acc _
    simp [validateForecastList]
  | cons fd rest ih =>
    intro acc hall
    obtain ⟨hlen, hperm⟩ := hall fd (by simp)
    have hsorted : pySortedInt (fd.forecasts.map (fun h => h.order)) = orders1to24 :=
      (pySortedInt_eq_iff_perm _).mpr hperm
    have hstep : validateForecastList (fd :: rest) acc =
        validateForecastList rest (acc + fd.forecasts.length) := by
      simp [validateForecastList, hlen, hsorted]
    rw [hstep, ih (acc + fd.forecasts.length) (fun x hx => hall x (by simp [hx]))]
    refine congrArg _ ?_
    simp [Nat.add_assoc]

/-- The validation loop rejects with a 400 as soon as some entry does not have
exactly 24 forecasts or its orders are not a permutation of 1..24. -/
theorem validateForecastList_err (L : List ForecastDataModel) :
    ∀ acc, (∃ fd ∈ L, fd.forecasts.length ≠ 24 ∨
        ¬(fd.forecasts.map (fun h => h.order)).Perm orders1to24) →
      ∃ d, validateForecastList L acc = ServerResult.httpError 400 d := by
  induction L with
  | nil =>
    intro acc h
    simp at h
  | cons fd rest ih =>
    intro acc h
    by_cases hlen : fd.forecasts.length = 24
    · by_cases hsort : pySortedInt (fd.forecasts.map (fun h => h.order)) = orders1to24
      · have hfdperm := (pySortedInt_eq_iff_perm _).mp hsort
        have hrest : ∃ fd2 ∈ rest, fd2.forecasts.length ≠ 24 ∨
            ¬(fd2.forecasts.map (fun h => h.order)).Perm orders1to24 := by
          rcases h with ⟨fd2, hmem, hviol⟩
          rcases List.mem_cons.mp hmem with heq | hmem2
          · subst heq
            rcases hviol with h1 | h2
            · exact absurd hlen h1
            · exact absurd hfdperm h2
          · exact ⟨fd2, hmem2, hviol⟩
        obtain ⟨d, hd⟩ := ih (acc + fd.forecasts.length) hrest
        refine ⟨d, ?_⟩
        have hstep : validateForecastList (fd :: rest) acc =
            validateForecastList rest (acc + fd.forecasts.length) := by
          simp [validateForecastList, hlen, hsort]
        rw [hstep, hd]
      · exact ⟨"Forecast orders must be 1-24", by simp [validateForecastList, hlen, hsort]⟩
    · exact ⟨"Expected 24 hourly forecasts, got " ++ toString fd.forecasts.length,
        by simp [validateForecastList, hlen]⟩

/-- C6: the forecast-save endpoint accepts a request exactly when every
forecastDataList entry has 24 forecasts whose orders are a permutation of
1..24, returning success with savedRecords the total number of hourly entries;
any violating entry is rejected with HTTP 400. -/
theorem claim_C6 (req : ConsumptionForecastRequestModel) :
    ((∀ fd ∈ req.forecastDataList, fd.forecasts.length = 24 ∧
        (fd.forecasts.map (fun h => h.order)).Perm orders1to24) →
      save_consumption_forecast req =
        ServerResult.response true "Consumption forecasts saved successfully"
          ((req.forecastDataList.map (fun fd => fd.forecasts.length)).sum)) ∧
    ((∃ fd ∈ req.forecastDataList, fd.forecasts.length ≠ 24 ∨
        ¬(fd.forecasts.map (fun h => h.order)).Perm orders1to24) →
      ∃ d, save_consumption_forecast req = ServerResult.httpError 400 d) := by
  constructor
  · intro hall
    have h := validateForecastList_ok req.forecastDataList 0 hall
    simpa [save_consumption_forecast] using h
  · intro hex
    have h := validateForecastList_err req.forecastDataList 0 hex
    simpa [save_consumption_forecast] using h

/-- C6 (witness): a request with one entry of 24 forecasts ordered 1..24 is
accepted with savedRecords = 24. -/
theorem claim_C6_witness :
    save_consumption_forecast validServerRequest =
      ServerResult.response true "Consumption forecasts saved successfully" 24 := by
  have h := (claim_C6 validServerRequest).1 (by
    intro fd hfd
    have hfd2 : fd = ForecastDataModel.mk 0 1 "testDemo" 0 false "2025-11-28"
        (orders1to24.map (fun o => ForecastHourModel.mk false "s" "e" 180 180 o 0)) := by
      simpa [validServerRequest] using hfd
    subst hfd2
    constructor
    · decide
    · have hmap : ((orders1to24.map
          (fun o => ForecastHourModel.mk false "s" "e" 180 180 o 0)).map
            (fun h => h.order)) = orders1to24 := by decide
      exact hmap ▸ List.Perm.refl _)
  rw [h]
  rfl

/-- C7 (counterexample): ForecastSender.send_forecast silently replaces a JSON
parse failure of a 200 response by the default value (a dict with status
"success" and the raw body) instead of surfacing a ParseError. -/
theorem claim_C7_counterexample :
    sender_parse_response (PyResponse.mk "http://test" 200 (some "text/html")
        "<html>Error</html>" (none : Option Unit)) =
      SenderParseOutcome.defaulted "success" "<html>Error</html>" := by
  rfl

/-- C7 (amended): the client path (safe_json_parse) fails on an unparseable
body with a ParseError carrying a body preview of at most 500 characters, the
HTTP status code and the content-type; but ForecastSender.send_forecast
swallows its own parse failure and returns a default value instead. -/
theorem claim_C7 {J : Type} (r : PyResponse J) (hr : r.json = none) :
    safe_json_parse r =
      Except.error (JSONParseErrorInfo.mk r.url r.status_code
        (r.content_type.getD "unknown") (bodyPreviewOf r.text)) ∧
    (bodyPreviewOf r.text).length ≤ 500 ∧
    sender_parse_response r = SenderParseOutcome.defaulted "success" r.text := by
  refine ⟨?_, ?_, ?_⟩
  · simp [safe_json_parse, hr]
  · by_cases ht : r.text.isEmpty
    · simp [bodyPreviewOf, ht]
      decide
    · simp only [bodyPreviewOf, ht, if_false]
      show (r.text.data.take 500).length ≤ 500
      exact List.length_take_le 500 r.text.data
  · simp [sender_parse_response, hr]

/-- C7 (witness): the amended statement evaluated on a concrete HTML error
body returned with status 200. -/
theorem claim_C7_witness :
    safe_json_parse (PyResponse.mk "http://w" 200 (some "text/html") "nope"
        (none : Option Unit)) =
      Except.error (JSONParseErrorInfo.mk "http://w" 200 "text/html" "nope") :=
  (claim_C7 (PyResponse.mk "http://w" 200 (some "text/html") "nope"
    (none : Option Unit)) rfl).1

/-- C8 (counterexample): a payload built by ForecastSender.build_api_payload
from 24 hourly records of value 1 carries total 0, while the sum of its 24
hourly values rounded to 2 decimals is 24. -/
theorem claim_C8_counterexample :
    ((build_api_payload bursaMap 12 2952 "BURSA AKÇANSA" "2025-12-03" senderRecs24).bind
        (fun p => p.forecastDataList.head?)).map (fun fd => fd.total) = some 0 ∧
    ((build_api_payload bursaMap 12 2952 "BURSA AKÇANSA" "2025-12-03" senderRecs24).bind
        (fun p => p.forecastDataList.head?)).map
      (fun fd => round2 ((fd.forecasts.map (fun e => e.value)).sum)) = some 24 ∧
    (0 : Rat) ≠ 24 := by
  refine ⟨by with_unfolding_all decide, by with_unfolding_all decide, by decide⟩

/-- C8 (amended): in transform_db_data_to_api_format the daily total equals
the sum of the payload's 24 hourly values rounded to 2 decimals, but
ForecastSender.build_api_payload hardcodes the total field to 0. -/
theorem claim_C8 :
    (∀ (records : List DbRecord) (date : String) (p : ApiPayload),
      transform_db_data_to_api_format records date = some p →
      ∀ fd ∈ p.forecastDataList,
        fd.forecasts.length = 24 ∧
        fd.total = round2 ((fd.forecasts.map (fun e => e.value)).sum)) ∧
    (∀ (m : List (String × FacilityInfo)) (gid uid : Int) (cn ds : String)
        (recs : List SenderRecord) (q : ApiPayload),
      build_api_payload m gid uid cn ds recs = some q →
      ∀ fd ∈ q.forecastDataList, fd.total = 0) := by
  constructor
  · intro records date p hp fd hfd
    by_cases hre : records.isEmpty
    · simp [transform_db_data_to_api_format, hre] at hp
    · rw [transform_db_data_to_api_format, if_neg (by simp [hre])] at hp
      rw [Option.some.injEq] at hp
      subst hp
      simp only [List.mem_singleton] at hfd
      subst hfd
      constructor
      · simp
      · rfl
  · intro m gid uid cn ds recs q hq fd hfd
    cases hg : get_facility_id m cn with
    | none => simp [build_api_payload, hg] at hq
    | some fid =>
      simp only [build_api_payload, hg, Option.some.injEq] at hq
      subst hq
      simp only [List.mem_singleton] at hfd
      subst hfd
      rfl

/-- C8 (witness): the transform of one database record produces an entry whose
total is the rounded sum of its hourly values. -/
theorem claim_C8_witness :
    dbRecs1Entry.total = round2 ((dbRecs1Entry.forecasts.map (fun e => e.value)).sum) :=
  (claim_C8.1 dbRecs1 "2025-11-28" dbRecs1Payload rfl dbRecs1Entry
    (by with_unfolding_all decide)).2

/-- C9: the facility-name normalization maps "BURSA AKÇANSA" and
"bursa akcansa" to the same key, folds the fixed Turkish letters to ASCII,
and whenever the facility map contains that key both lookups resolve to the
same facility id. -/
theorem claim_C9 :
    normalize_name "BURSA AKÇANSA" = normalize_name "bursa akcansa" ∧
    normalize_name "çğıöşüi ÇĞİÖŞÜ" = "CGIOSUI CGIOSU" ∧
    ∀ (m : List (String × FacilityInfo)),
      (m.lookup (normalize_name "BURSA AKÇANSA")).isSome →
      (get_facility_id m "BURSA AKÇANSA" = get_facility_id m "bursa akcansa" ∧
        (get_facility_id m "BURSA AKÇANSA").isSome) := by
  have hn : normalize_name "BURSA AKÇANSA" = normalize_name "bursa akcansa" := by decide
  refine ⟨hn, by decide, ?_⟩
  intro m hm
  cases hl : m.lookup (normalize_name "BURSA AKÇANSA") with
  | none =>
    rw [hl] at hm
    simp at hm
  | some info =>
    have h2 : m.lookup (normalize_name "bursa akcansa") = some info := hn ▸ hl
    constructor
    · simp [get_facility_id, hl, h2]
    · simp [get_facility_id, hl]

/-- C9 (witness): both spellings resolve to facility id 41 in a concrete map. -/
theorem claim_C9_witness :
    get_facility_id bursaMap "BURSA AKÇANSA" = get_facility_id bursaMap "bursa akcansa" ∧
      (get_facility_id bursaMap "BURSA AKÇANSA").isSome :=
  claim_C9.2.2 bursaMap (by decide)




